import Mathlib

set_option linter.unusedVariables false

/-!
Verification of the TPRM Job Search Automation backend (`backend/server.py`).

The Python source is shallowly embedded: pure helpers become Lean functions,
the network, the mail relay and the database become explicit environment
parameters, and effectful pipeline steps produce an explicit effect trace.
Python strings are modelled as Lean `String` (the titles and keywords involved
are ASCII, so `Char.toLower` models `str.lower`).  Generated fields that are
fresh per object (`id`, a UUID, and `scraped_at`, a wall-clock timestamp) do
not influence any verified property and are omitted from the record model;
wall-clock dates that do appear in outputs are passed in as parameters.
-/

namespace JobSearch

/-! ### Python string primitives -/

/-- `startsWithL l p` models Python's "string `l` begins with `p`". -/
def startsWithL : List Char → List Char → Bool
  | _, [] => true
  | [], _ :: _ => false
  | a :: as, b :: bs => a = b && startsWithL as bs

/-- `containsL hay needle` models Python's `needle in hay` substring test. -/
def containsL : List Char → List Char → Bool
  | [], needle => needle.isEmpty
  | c :: t, needle => startsWithL (c :: t) needle || containsL t needle

/-- Python's `needle in hay` on strings. -/
def strContains (hay needle : String) : Bool :=
  containsL hay.data needle.data

/-- Python's `str.lower`, restricted to the ASCII range actually used. -/
def pyLower (s : String) : String :=
  String.mk (s.data.map Char.toLower)

/-- Python's `\s` character class on the ASCII range. -/
def isPySpace (c : Char) : Bool :=
  c = ' ' || c = '\t' || c = '\n' || c = '\r' || c.toNat = 11 || c.toNat = 12

/-- Python's `str.strip()` on a character list. -/
def pyStrip (l : List Char) : List Char :=
  ((l.dropWhile isPySpace).reverse.dropWhile isPySpace).reverse

/-! ### `urllib.parse.quote` (used to build the search URL) -/

/-- Characters `urllib.parse.quote` leaves unescaped (unreserved plus the
default safe character `/`). -/
def isQuoteSafe (c : Char) : Bool :=
  ('A' ≤ c && c ≤ 'Z') || ('a' ≤ c && c ≤ 'z') || ('0' ≤ c && c ≤ '9') ||
    c = '_' || c = '.' || c = '-' || c = '~' || c = '/'

/-- Upper-case hexadecimal digit for `n < 16`. -/
def hexDigit (n : Nat) : Char :=
  if n < 10 then Char.ofNat (48 + n) else Char.ofNat (55 + n)

/-- UTF-8 encoding of one character, as byte values. -/
def utf8Bytes (c : Char) : List Nat :=
  let n := c.toNat
  if n < 128 then [n]
  else if n < 2048 then [192 + n / 64, 128 + n % 64]
  else if n < 65536 then [224 + n / 4096, 128 + n / 64 % 64, 128 + n % 64]
  else [240 + n / 262144, 128 + n / 4096 % 64, 128 + n / 64 % 64, 128 + n % 64]

/-- `%XX` escape of one byte. -/
def percentByte (b : Nat) : String :=
  String.mk ['%', hexDigit (b / 16), hexDigit (b % 16)]

/-- `urllib.parse.quote(s)` with the default safe set. -/
def pyQuote (s : String) : String :=
  s.data.foldl
    (fun acc c =>
      if isQuoteSafe c then acc.push c
      else acc ++ String.join ((utf8Bytes c).map percentByte))
    ""

/-! ### Company-name extraction: `re.search` of the fixed pattern from
server.py line 129 against the description snippet -/

/-- The character class `[A-Za-z\s&.]` of the company pattern. -/
def isCompanyClassChar (c : Char) : Bool :=
  ('A' ≤ c && c ≤ 'Z') || ('a' ≤ c && c ≤ 'z') || isPySpace c || c = '&' || c = '.'

/-- Attempt the company pattern at the head of the list, returning the first
capture group.  The greedy whitespace run backtracks by one character when
the class cannot otherwise match, exactly as the regex engine does. -/
def matchCompanyAt : List Char → Option (List Char)
  | 'a' :: 't' :: rest =>
    let k := (rest.takeWhile isPySpace).length
    if k = 0 then none
    else
      let grp := (rest.drop k).takeWhile isCompanyClassChar
      if grp.isEmpty then (if 2 ≤ k then some [' '] else none) else some grp
  | _ => none

/-- `re.search`: the leftmost position where the company pattern matches. -/
def searchCompanyGroup : List Char → Option (List Char)
  | [] => none
  | c :: cs =>
    match matchCompanyAt (c :: cs) with
    | some g => some g
    | none => searchCompanyGroup cs

/-- Company-name extraction from the optional description snippet:
`group(1).strip()` on a match, otherwise the sentinel placeholder. -/
def extract_company_name (desc : Option String) : String :=
  match desc with
  | none => "Company Name Not Found"
  | some d =>
    match searchCompanyGroup d.data with
    | some g => String.mk (pyStrip g)
    | none => "Company Name Not Found"

/-! ### Keyword and skill generators (`generate_keywords`,
`generate_technical_skills`, server.py lines 161–197) -/

/-- The fixed base keyword list of `generate_keywords`. -/
def base_keywords : List String :=
  ["Third Party Risk Management",
   "Vendor Risk Assessment",
   "Supplier Risk Analysis",
   "Risk Mitigation",
   "Compliance Management"]

/-- `generate_keywords(job_title, query)`: start from the base list, append
title-triggered terms, and return the first five entries. -/
def generate_keywords (job_title query : String) : List String :=
  let ks1 := if strContains (pyLower job_title) "senior" then
      base_keywords ++ ["Senior Risk Analyst", "Risk Leadership"] else base_keywords
  let ks2 := if strContains (pyLower job_title) "analyst" then
      ks1 ++ ["Risk Analysis", "Data Analysis"] else ks1
  let ks3 := if strContains (pyLower job_title) "manager" then
      ks2 ++ ["Risk Management", "Team Leadership"] else ks2
  ks3.take 5

/-- The fixed base technical-skill list of `generate_technical_skills`. -/
def base_technical_skills : List String :=
  ["GRC Tools (Archer, ServiceNow)",
   "Risk Assessment Frameworks",
   "SQL and Data Analysis",
   "Excel/Advanced Analytics",
   "Regulatory Compliance (SOX, GDPR)"]

/-- `generate_technical_skills(job_title, query)`. -/
def generate_technical_skills (job_title query : String) : List String :=
  let ks1 := if strContains (pyLower job_title) "senior" then
      base_technical_skills ++ ["Risk Modeling", "Quantitative Analysis"] else base_technical_skills
  let ks2 := if strContains (pyLower job_title) "analyst" then
      ks1 ++ ["Python/R", "Business Intelligence"] else ks1
  ks2.take 5

/-! ### Data model (server.py lines 53–79) -/

/-- `JobListing`.  The generated `id` (a fresh UUID) and `scraped_at`
(wall-clock capture time) fields carry no verified content and are omitted. -/
structure JobListing where
  job_title : String
  company_name : String
  job_link : String
  location : String
  keywords : List String := []
  technical_skills : List String := []
  posted_date : Option String := none
  source : String := "briansjobsearch"
  deriving DecidableEq, Repr

/-- `JobSearchRequest` with its declared defaults. -/
structure JobSearchRequest where
  query : String
  location : String := "Bangalore India OR remote"
  days_filter : Nat := 7
  deriving DecidableEq, Repr

/-- `JobSearchResult`; `search_date` (a datetime) is modelled as an abstract
numeric timestamp. -/
structure JobSearchResult where
  jobs : List JobListing
  total_count : Nat
  search_query : String
  search_date : Nat
  deriving DecidableEq, Repr

/-! ### Search Fetcher (`search_jobs_google`, server.py lines 82–159).
The network is an explicit environment: the `i`-th issued request receives
outcome `env i`, either an exception or an HTTP status together with the
result blocks the HTML parser would find. -/

/-- The six query templates built from the caller's query. -/
def search_queries (query : String) : List String :=
  ["\"" ++ query ++ "\" jobs in Bangalore India OR remote site:linkedin.com OR site:naukri.com OR site:indeed.com",
   "\"Third Party Risk\" OR \"Vendor Risk\" OR \"Supplier Risk\" jobs Bangalore India OR remote",
   "\"TPRM\" OR \"Third Party Risk Management\" jobs Bangalore OR remote product company",
   "\"Risk Assessment\" analyst jobs Bangalore India OR remote 6 years experience",
   "\"Third Party Risk\" remote jobs India product company",
   "\"Vendor Risk Management\" remote OR Bangalore India jobs"]

/-- The URL requested for one template. -/
def google_url (search_query : String) : String :=
  "https://www.google.com/search?q=" ++ pyQuote search_query ++ "&tbm=nws"

/-- One parsed `div.g` result block: the text of its `h3` element if present,
the `a` element if present (whose `href` attribute may itself be absent), the
text of its `span.st` element if present, and whether processing this block
raises (such a block is logged and skipped). -/
structure ResultBlock where
  title : Option String
  link : Option (Option String)
  desc : Option String
  raises : Bool := false
  deriving DecidableEq, Repr

/-- Outcome of one template request: an exception anywhere before the
per-result loop, or a response with an HTTP status and parsed result blocks. -/
inductive FetchOutcome where
  | raise
  | response (status : Nat) (blocks : List ResultBlock)
  deriving DecidableEq, Repr

/-- One observable step of the fetch loop. -/
inductive Step where
  | request (url : String)
  | sleep (seconds : Nat)
  deriving DecidableEq, Repr

/-- Processing of one result block (the inner `for result in job_results[:10]`
body): requires both a title element and a link element; a missing `href`
makes the `JobListing` validation raise, which the per-result handler catches,
skipping the block. -/
def parseBlock (query : String) (b : ResultBlock) : Option JobListing :=
  if b.raises then none
  else
    match b.title, b.link with
    | some job_title, some link_elem =>
      match link_elem with
      | some job_link =>
        some { job_title := job_title,
               company_name := extract_company_name b.desc,
               job_link := job_link,
               location := "Bangalore, India / Remote",
               keywords := generate_keywords job_title query,
               technical_skills := generate_technical_skills job_title query,
               posted_date := some "Recent (24 hours)",
               source := "google_search" }
      | none => none
    | _, _ => none

/-- One template iteration: the request is always issued; on status 200 the
first ten blocks are processed and a 1-second sleep follows; on any other
status, or an exception, nothing is extracted and no sleep happens. -/
def processTemplate (query search_query : String) (o : FetchOutcome) :
    List JobListing × List Step :=
  match o with
  | .raise => ([], [Step.request (google_url search_query)])
  | .response status blocks =>
    if status = 200 then
      ((blocks.take 10).filterMap (parseBlock query),
       [Step.request (google_url search_query), Step.sleep 1])
    else
      ([], [Step.request (google_url search_query)])

/-- The outer `for search_query in search_queries` loop, threading the index
of the next request into the environment. -/
def runTemplates (env : Nat → FetchOutcome) (query : String) :
    Nat → List String → List JobListing × List Step
  | _, [] => ([], [])
  | i, sq :: rest =>
    let head := processTemplate query sq (env i)
    let tail := runTemplates env query (i + 1) rest
    (head.1 ++ tail.1, head.2 ++ tail.2)

/-- `search_jobs_google(query, location, days_filter)` against environment
`env`: the extracted postings together with the request/sleep trace. -/
def search_jobs_google (query : String) (location : String) (days_filter : Nat)
    (env : Nat → FetchOutcome) : List JobListing × List Step :=
  runTemplates env query 0 (search_queries query)

/-! ### Relevance Filter (server.py lines 306–311 and 365–370) -/

/-- The fixed relevance keyword set. -/
def relevance_keywords : List String :=
  ["risk", "compliance", "vendor", "supplier", "third party", "tprm"]

/-- `any(keyword in job.job_title.lower() for keyword in ...)`. -/
def is_relevant (job : JobListing) : Bool :=
  relevance_keywords.any fun keyword => strContains (pyLower job.job_title) keyword

/-- The relevance-filter loop appending each matching job. -/
def filter_relevant (jobs : List JobListing) : List JobListing :=
  jobs.filter is_relevant

/-! ### Mailer (`send_email_report`, server.py lines 199–292) -/

/-- The fixed sender address. -/
def EMAIL_ADDRESS : String := "ananya4bh@gmail.com"

/-- The fixed subject line. -/
def EMAIL_SUBJECT : String := "TPRM jobs for today"

/-- The static head of the HTML report (literal CSS braces written as their
escape codes) up to and including the table header row, with the current date
and the result count interpolated. -/
def email_html_header (today : String) (count : Nat) : String :=
  "<!DOCTYPE html>\n<html>\n<head>\n<style>\n" ++
  "table \x7b border-collapse: collapse; width: 100%; margin: 20px 0; \x7d\n" ++
  "th, td \x7b border: 1px solid #ddd; padding: 12px; text-align: left; \x7d\n" ++
  "th \x7b background-color: #f2f2f2; font-weight: bold; \x7d\n" ++
  "tr:nth-child(even) \x7b background-color: #f9f9f9; \x7d\n" ++
  ".keywords, .skills \x7b font-size: 12px; color: #666; \x7d\n" ++
  "</style>\n</head>\n<body>\n" ++
  "<h2>TPRM Job Search Results - " ++ today ++ "</h2>\n" ++
  "<p>Found " ++ toString count ++
  " relevant Third Party Risk Assessment jobs in Bangalore, India & Remote positions</p>\n" ++
  "<table>\n<tr>\n<th>Job Title</th>\n<th>Company Name</th>\n<th>Direct Company Job Link</th>\n" ++
  "<th>5 Role-Related Keywords</th>\n<th>5 Technical Skills</th>\n</tr>\n"

/-- One table row: keyword and skill lists are truncated to five entries and
joined by a comma. -/
def email_row (job : JobListing) : String :=
  "<tr>\n<td>" ++ job.job_title ++ "</td>\n<td>" ++ job.company_name ++
  "</td>\n<td><a href=\"" ++ job.job_link ++ "\" target=\"_blank\">View Job</a></td>\n" ++
  "<td class=\"keywords\">" ++ String.intercalate ", " (job.keywords.take 5) ++ "</td>\n" ++
  "<td class=\"skills\">" ++ String.intercalate ", " (job.technical_skills.take 5) ++ "</td>\n</tr>\n"

/-- The static closing note and signature. -/
def email_footer : String :=
  "</table>\n<p><strong>Note:</strong> Jobs are filtered for recent postings (last 24 hours) " ++
  "and focus on Third Party Risk, Vendor Risk, and Supplier Risk Assessment roles in Bangalore " ++
  "and remote positions for product companies.</p>\n" ++
  "<p>Best regards,<br>\nAutomated Job Search System</p>\n</body>\n</html>\n"

/-- The full rendered report body. -/
def email_html (jobs : List JobListing) (today : String) : String :=
  email_html_header today jobs.length ++ String.join (jobs.map email_row) ++ email_footer

/-- Behaviour of the outbound mail relay: which of the SMTP operations the
Mailer performs raise an exception. -/
structure RelayBehavior where
  connect_raises : Bool := false
  starttls_raises : Bool := false
  login_raises : Bool := false
  sendmail_raises : Bool := false
  quit_raises : Bool := false
  deriving DecidableEq, Repr

/-- The delivery phase (`SMTP(...)`, `starttls`, `login`, `sendmail`, `quit`),
as the exception-or-unit computation it performs against the relay. -/
def smtp_session (relay : RelayBehavior) : Except String Unit :=
  if relay.connect_raises then Except.error "SMTP connection failed"
  else if relay.starttls_raises then Except.error "starttls failed"
  else if relay.login_raises then Except.error "login failed"
  else if relay.sendmail_raises then Except.error "sendmail failed"
  else if relay.quit_raises then Except.error "quit failed"
  else Except.ok ()

/-- `send_email_report(jobs, recipient_email)`: composes the message (total in
the model — every composition step in the source is pure string and MIME
assembly over already-validated fields), performs the SMTP session, and maps
any raised exception to the return value `false` via the enclosing
`try`/`except`. -/
def send_email_report (jobs : List JobListing) (recipient_email today : String)
    (relay : RelayBehavior) : Bool :=
  let message_body := email_html jobs today
  match smtp_session relay with
  | Except.ok _ => true
  | Except.error _ => false

/-! ### Pipeline: daily task, endpoints, result store
(server.py lines 294–329 and 350–436) -/

/-- An observable external effect of a pipeline run, in order of occurrence. -/
inductive Effect where
  | insert (result : JobSearchResult)
  | sendMail (jobs : List JobListing) (recipient : String) (ok : Bool)
  deriving DecidableEq, Repr

/-- Environment of one pipeline run: the search responses, whether the
database insert raises, the relay behaviour, and the wall clock. -/
structure TaskEnv where
  fetch : Nat → FetchOutcome
  insert_raises : Bool := false
  relay : RelayBehavior := {}
  today : String := ""
  now : Nat := 0

/-- `daily_job_search_task`: fetch, filter, build the `JobSearchResult`,
insert it into the store, then attempt the email report whose boolean result
is ignored.  The surrounding `try`/`except` makes an insert failure abort the
rest of the body (no store change, no mail attempt) without propagating.
Returns the updated store and the effect trace. -/
def daily_job_search_task (env : TaskEnv) (store : List JobSearchResult) :
    List JobSearchResult × List Effect :=
  let jobs := (search_jobs_google "Third Party Risk Assessment"
      "Bangalore India OR remote" 7 env.fetch).1
  let relevant_jobs := filter_relevant jobs
  let job_search_result : JobSearchResult :=
    { jobs := relevant_jobs, total_count := relevant_jobs.length,
      search_query := "Third Party Risk Assessment", search_date := env.now }
  if env.insert_raises then
    (store, [])
  else
    let mail_ok := send_email_report relevant_jobs EMAIL_ADDRESS env.today env.relay
    (store ++ [job_search_result],
     [Effect.insert job_search_result,
      Effect.sendMail relevant_jobs EMAIL_ADDRESS mail_ok])

/-- An HTTP response: a 200 body or a 500 error with detail. -/
inductive ApiResponse (α : Type) where
  | ok (body : α)
  | serverError (detail : String)
  deriving DecidableEq, Repr

/-- HTTP status of a response. -/
def statusCode {α : Type} : ApiResponse α → Nat
  | .ok _ => 200
  | .serverError _ => 500

/-- `POST /search-jobs`: fetch with the request's parameters, filter, and
shape the response.  No step of the body can raise (the fetcher catches its
own exceptions), so the handler's `except` branch is unreachable. -/
def search_jobs_endpoint (request : JobSearchRequest) (env : Nat → FetchOutcome)
    (now : Nat) : ApiResponse JobSearchResult :=
  let jobs := (search_jobs_google request.query request.location
      request.days_filter env).1
  let relevant_jobs := filter_relevant jobs
  ApiResponse.ok
    { jobs := relevant_jobs, total_count := relevant_jobs.length,
      search_query := request.query, search_date := now }

/-- `POST /trigger-manual-search`: runs the daily task, which catches all of
its own exceptions, so the handler always answers with the success message. -/
def trigger_manual_search (env : TaskEnv) (store : List JobSearchResult) :
    (List JobSearchResult × List Effect) × ApiResponse String :=
  (daily_job_search_task env store,
   ApiResponse.ok "Manual job search completed successfully")

/-- `GET /job-results`: the stored records sorted by `search_date` descending,
limited to ten; a database error surfaces as a 500 response. -/
def get_job_results (db_raises : Bool) (store : List JobSearchResult) :
    ApiResponse (List JobSearchResult) :=
  if db_raises then ApiResponse.serverError "database error"
  else
    ApiResponse.ok
      ((store.mergeSort fun a b => Nat.ble b.search_date a.search_date).take 10)

/-! ### Spec-side trace predicates (for the pause-between-requests claim) -/

/-- Whether a step is a template request. -/
def isRequest : Step → Bool
  | .request _ => true
  | .sleep _ => false

/-- The spec's pause discipline on a trace: between any two consecutive
steps, at most one is a request — that is, some sleep separates every pair
of consecutive requests. -/
def sleepsBetweenRequests : List Step → Bool
  | a :: b :: rest => (!(isRequest a && isRequest b)) && sleepsBetweenRequests (b :: rest)
  | _ => true

/-- Every sleep in the trace lasts exactly one second. -/
def allSleepsOneSecond (trace : List Step) : Bool :=
  trace.all fun s =>
    match s with
    | .sleep n => n == 1
    | .request _ => true

/-- Whether a template outcome is a response with HTTP status 200. -/
def hasOkStatus : FetchOutcome → Bool
  | .raise => false
  | .response status _ => status == 200

/-- Spec-side description of the fetch trace: one request per template, each
followed by a 1-second sleep exactly when its outcome has status 200. -/
def sleepTraceSpec (env : Nat → FetchOutcome) : Nat → List String → List Step
  | _, [] => []
  | i, sq :: rest =>
    Step.request (google_url sq) ::
      ((if hasOkStatus (env i) then [Step.sleep 1] else []) ++
        sleepTraceSpec env (i + 1) rest)

/-! ## Shared lemmas -/

theorem startsWithL_iff (l p : List Char) : startsWithL l p = true ↔ ∃ t, l = p ++ t := by
  induction p generalizing l with
  | nil => simp [startsWithL]
  | cons b bs ih =>
    cases l with
    | nil => simp [startsWithL]
    | cons a as =>
      simp [startsWithL, ih, List.cons.injEq, exists_and_left]

theorem containsL_iff (l p : List Char) : containsL l p = true ↔ ∃ u v, l = u ++ (p ++ v) := by
  induction l with
  | nil =>
    simp only [containsL, List.isEmpty_iff]
    constructor
    · intro h; exact ⟨[], [], by simp [h]⟩
    · rintro ⟨u, v, huv⟩
      rcases List.append_eq_nil.mp huv.symm with ⟨hu, hpv⟩
      exact (List.append_eq_nil.mp hpv).1
  | cons c t ih =>
    simp only [containsL, Bool.or_eq_true, startsWithL_iff, ih]
    constructor
    · rintro (⟨s, hs⟩ | ⟨u, v, huv⟩)
      · exact ⟨[], s, by simp [hs]⟩
      · exact ⟨c :: u, v, by simp [huv]⟩
    · rintro ⟨u, v, huv⟩
      cases u with
      | nil => exact Or.inl ⟨v, by simpa using huv⟩
      | cons a u' =>
        right
        rw [List.cons_append] at huv
        exact ⟨u', v, (List.cons.injEq _ _ _ _ ▸ huv).2⟩

/-- Python's `needle in hay` holds exactly when `needle` occurs as a
contiguous substring of `hay`. -/
theorem strContains_iff (hay needle : String) :
    strContains hay needle = true ↔ ∃ u v : String, hay = u ++ needle ++ v := by
  rw [strContains, containsL_iff]
  constructor
  · rintro ⟨u, v, huv⟩
    refine ⟨String.mk u, String.mk v, ?_⟩
    apply String.ext
    simpa [String.data_append] using huv
  · rintro ⟨u, v, huv⟩
    exact ⟨u.data, v.data, by simp [huv, String.data_append]⟩

/-- The keyword generator always returns the base list: the base list already
has five entries and the trigger terms are appended behind position five. -/
theorem generate_keywords_eq_base (job_title query : String) :
    generate_keywords job_title query = base_keywords := by
  simp only [generate_keywords]
  by_cases h1 : strContains (pyLower job_title) "senior" <;>
  by_cases h2 : strContains (pyLower job_title) "analyst" <;>
  by_cases h3 : strContains (pyLower job_title) "manager" <;>
  simp [h1, h2, h3] <;> decide

/-- The skill generator always returns the base list, for the same reason. -/
theorem generate_technical_skills_eq_base (job_title query : String) :
    generate_technical_skills job_title query = base_technical_skills := by
  simp only [generate_technical_skills]
  by_cases h1 : strContains (pyLower job_title) "senior" <;>
  by_cases h2 : strContains (pyLower job_title) "analyst" <;>
  simp [h1, h2] <;> decide

/-! ## Claims -/

/-- C9: for every job title and query, `generate_keywords` returns exactly the
fixed five-element base keyword list and `generate_technical_skills` returns
exactly the fixed five-element base skill list — the appended title-triggered
terms are always truncated away, so both outputs are constant and independent
of both inputs. -/
theorem C9_generators_constant (job_title query : String) :
    generate_keywords job_title query = base_keywords ∧
    generate_technical_skills job_title query = base_technical_skills ∧
    base_keywords.length = 5 ∧ base_technical_skills.length = 5 :=
  ⟨generate_keywords_eq_base job_title query,
   generate_technical_skills_eq_base job_title query, by decide, by decide⟩

/-- C1 counterexample: the title "Senior Risk Analyst" contains "senior"
case-insensitively, yet the generated keyword list contains neither
"Senior Risk Analyst" nor "Risk Leadership". -/
theorem C1_counterexample :
    strContains (pyLower "Senior Risk Analyst") "senior" = true ∧
    "Senior Risk Analyst" ∉
      generate_keywords "Senior Risk Analyst" "Third Party Risk Assessment" ∧
    "Risk Leadership" ∉
      generate_keywords "Senior Risk Analyst" "Third Party Risk Assessment" := by
  refine ⟨by decide, ?_, ?_⟩ <;> · rw [generate_keywords_eq_base]; decide

/-- C1 (amended): for every job title containing "senior" (case-insensitive)
the returned keyword list is the fixed base list — the senior-specific terms
"Senior Risk Analyst" and "Risk Leadership" are appended but truncated away
and never appear — and for every title and query the list has length at most
five. -/
theorem C1_senior_keywords (job_title query : String) :
    (strContains (pyLower job_title) "senior" = true →
      generate_keywords job_title query = base_keywords ∧
      "Senior Risk Analyst" ∉ generate_keywords job_title query ∧
      "Risk Leadership" ∉ generate_keywords job_title query) ∧
    (generate_keywords job_title query).length ≤ 5 := by
  refine ⟨fun _ => ⟨generate_keywords_eq_base job_title query, ?_, ?_⟩, ?_⟩ <;>
    rw [generate_keywords_eq_base] <;> decide

/-- C1 witness: the amended statement applied to the senior-titled input. -/
theorem C1_senior_keywords_witness :
    generate_keywords "Senior Risk Analyst" "Third Party Risk Assessment" = base_keywords :=
  (((C1_senior_keywords "Senior Risk Analyst" "Third Party Risk Assessment").1
    (by decide))).1

/-- C5: the Relevance Filter is idempotent — applying it to its own output
yields that output unchanged. -/
theorem C5_filter_idempotent (jobs : List JobListing) :
    filter_relevant (filter_relevant jobs) = filter_relevant jobs := by
  simp [filter_relevant, List.filter_filter]

/-- C6: the Relevance Filter returns exactly the sub-list of postings whose
lower-cased title contains at least one of the fixed relevance keywords as a
substring; it is a total function with no failure mode. -/
theorem C6_filter_exact (jobs : List JobListing) (job : JobListing) :
    job ∈ filter_relevant jobs ↔
      job ∈ jobs ∧ ∃ k ∈ relevance_keywords, ∃ u v : String,
        pyLower job.job_title = u ++ k ++ v := by
  simp only [filter_relevant, List.mem_filter, is_relevant, List.any_eq_true,
    strContains_iff]

/-- C6 witness: the characterization applied to one concrete relevant
posting. -/
theorem C6_filter_exact_witness :
    let j : JobListing := { job_title := "Risk Analyst", company_name := "C",
                            job_link := "l", location := "x" }
    j ∈ filter_relevant [j] :=
  (C6_filter_exact _ _).mpr
    ⟨by decide, "risk", by decide, "", " analyst", by decide⟩

/-- C4: the `days_filter` argument of the Search Fetcher influences neither
the issued requests, the sleeps, nor the extracted postings: two runs with
the same query, location and external responses but different `days_filter`
values coincide exactly. -/
theorem C4_days_filter_noninterference (query location : String) (d1 d2 : Nat)
    (env : Nat → FetchOutcome) :
    search_jobs_google query location d1 env = search_jobs_google query location d2 env :=
  rfl

/-- C8: `GET /job-results` against an empty, healthy store answers with an
empty list and HTTP status 200, not an error response. -/
theorem C8_empty_store :
    get_job_results false [] = ApiResponse.ok [] ∧
    statusCode (get_job_results false []) = 200 := by
  constructor
  · simp [get_job_results]
  · rfl

/-- C3: the Mailer returns a success/failure boolean and never propagates an
exception: its result is `false` exactly when some step of the SMTP session
raises, and in particular a relay that raises on `login` yields `false`.
Composition is total (pure string and MIME assembly), so no composition
exception exists to propagate; delivery exceptions are all mapped to
`false` by the enclosing handler. -/
theorem C3_mailer_no_propagation (jobs : List JobListing) (recipient today : String)
    (relay : RelayBehavior) :
    (send_email_report jobs recipient today relay = false ↔
      ∃ e, smtp_session relay = Except.error e) ∧
    (relay.login_raises = true → send_email_report jobs recipient today relay = false) := by
  constructor
  · unfold send_email_report
    cases h : smtp_session relay with
    | ok u => simp [h]
    | error e => simp [h]
  · intro hl
    unfold send_email_report smtp_session
    cases hc : relay.connect_raises <;> cases hs : relay.starttls_raises <;>
      simp [hc, hs, hl]

/-- C3 witness: a relay stub that raises on `login` makes the Mailer return
`false`. -/
theorem C3_mailer_witness :
    send_email_report [] "ananya4bh@gmail.com" "2025-01-01"
      { login_raises := true } = false :=
  (C3_mailer_no_propagation [] "ananya4bh@gmail.com" "2025-01-01"
    { login_raises := true }).2 rfl

/-- C2: every Search Result the pipeline produces — the record the daily task
inserts into the store, and the body the manual search endpoint returns —
has `total_count` equal to the length of its `jobs` list. -/
theorem C2_total_count_eq_len (env : TaskEnv) (store : List JobSearchResult)
    (r : JobSearchResult) :
    (Effect.insert r ∈ (daily_job_search_task env store).2 →
      r.total_count = r.jobs.length) ∧
    (∀ (request : JobSearchRequest) (fenv : Nat → FetchOutcome) (now : Nat)
        (r2 : JobSearchResult),
      search_jobs_endpoint request fenv now = ApiResponse.ok r2 →
      r2.total_count = r2.jobs.length) := by
  constructor
  · intro hr
    unfold daily_job_search_task at hr
    by_cases he : env.insert_raises <;> simp [he] at hr
    subst hr
    rfl
  · intro request fenv now r2 h
    unfold search_jobs_endpoint at h
    simp only [ApiResponse.ok.injEq] at h
    subst h
    rfl

/-- C2 witness: the invariant instantiated at the record inserted by a run in
which every template request raises. -/
theorem C2_total_count_witness :
    (⟨[], 0, "Third Party Risk Assessment", 0⟩ : JobSearchResult).total_count =
      (⟨[], 0, "Third Party Risk Assessment", 0⟩ : JobSearchResult).jobs.length :=
  (C2_total_count_eq_len ⟨fun _ => FetchOutcome.raise, false, {}, "", 0⟩ [] _).1
    (by decide)

/-- The trace of the template loop is one request per template, each followed
by a 1-second sleep exactly when its outcome has status 200. -/
theorem runTemplates_trace (env : Nat → FetchOutcome) (query : String) :
    ∀ (sqs : List String) (i : Nat),
      (runTemplates env query i sqs).2 = sleepTraceSpec env i sqs := by
  intro sqs
  induction sqs with
  | nil => intro i; rfl
  | cons sq rest ih =>
    intro i
    simp only [runTemplates, sleepTraceSpec]
    rw [ih]
    cases h : env i with
    | raise => simp [processTemplate, hasOkStatus]
    | response status blocks =>
      by_cases hs : status = 200 <;> simp [processTemplate, hasOkStatus, hs]

/-- Every sleep in the spec-side trace lasts one second. -/
theorem sleepTraceSpec_allSleepsOne (env : Nat → FetchOutcome) :
    ∀ (sqs : List String) (i : Nat),
      allSleepsOneSecond (sleepTraceSpec env i sqs) = true := by
  intro sqs
  induction sqs with
  | nil => intro i; rfl
  | cons sq rest ih =>
    intro i
    have h2 := ih (i + 1)
    simp only [sleepTraceSpec, allSleepsOneSecond, List.all_cons, List.all_append] at h2 ⊢
    cases h : hasOkStatus (env i) <;> simp [h2]

/-- C7 counterexample: when every template request is answered with HTTP
status 500, all six requests are issued and the trace contains no sleep at
all — so the pause does not follow each template request regardless of its
status. -/
theorem C7_counterexample :
    ((search_jobs_google "Third Party Risk Assessment" "Bangalore India OR remote" 7
        fun _ => FetchOutcome.response 500 []).2.countP isRequest = 6) ∧
    sleepsBetweenRequests
      (search_jobs_google "Third Party Risk Assessment" "Bangalore India OR remote" 7
        fun _ => FetchOutcome.response 500 []).2 = false := by
  constructor <;> rfl

/-- C7 (amended): the fetch trace is exactly one request per template, with a
1-second sleep following precisely those template requests whose response has
HTTP status 200 (raised or non-success templates get no pause), and every
sleep in the trace lasts one second. -/
theorem C7_pause_after_ok_requests (query location : String) (days_filter : Nat)
    (env : Nat → FetchOutcome) :
    (search_jobs_google query location days_filter env).2 =
      sleepTraceSpec env 0 (search_queries query) ∧
    allSleepsOneSecond (search_jobs_google query location days_filter env).2 = true := by
  refine ⟨runTemplates_trace env query _ 0, ?_⟩
  rw [search_jobs_google, runTemplates_trace]
  exact sleepTraceSpec_allSleepsOne env _ 0

/-- C10: in every pipeline run the Search Result is written to the store
before the email send is attempted (any send effect in the trace is preceded
by an insert effect), the relay's behaviour — including a failing mailer —
changes neither the resulting store nor anything else the run returns, and
the manual-trigger endpoint reports success regardless. -/
theorem C10_store_before_mail (env : TaskEnv) (store : List JobSearchResult) :
    (∀ relay1 relay2 : RelayBehavior,
      (daily_job_search_task { env with relay := relay1 } store).1 =
        (daily_job_search_task { env with relay := relay2 } store).1) ∧
    (∀ (pre : List Effect) (jl : List JobListing) (rc : String) (ok : Bool)
        (post : List Effect),
      (daily_job_search_task env store).2 = pre ++ Effect.sendMail jl rc ok :: post →
      ∃ r, Effect.insert r ∈ pre) ∧
    (trigger_manual_search env store).2 =
      ApiResponse.ok "Manual job search completed successfully" := by
  refine ⟨?_, ?_, rfl⟩
  · intro relay1 relay2
    by_cases he : env.insert_raises <;> simp [daily_job_search_task, he]
  · intro pre jl rc ok post h
    unfold daily_job_search_task at h
    by_cases he : env.insert_raises <;> simp [he] at h
    cases pre with
    | nil => simp at h
    | cons a pre' =>
      cases pre' with
      | nil =>
        simp only [List.cons_append, List.nil_append, List.cons.injEq] at h
        exact ⟨_, by rw [← h.1]; exact List.mem_singleton_self _⟩
      | cons b pre'' => simp at h

/-- C10 witness: in a concrete run whose templates all raise and whose insert
succeeds, the send effect is preceded by the insert of the (empty) Search
Result. -/
theorem C10_store_before_mail_witness :
    ∃ r, Effect.insert r ∈
      [Effect.insert (⟨[], 0, "Third Party Risk Assessment", 0⟩ : JobSearchResult)] :=
  (C10_store_before_mail ⟨fun _ => FetchOutcome.raise, false, {}, "", 0⟩ []).2.1
    [Effect.insert ⟨[], 0, "Third Party Risk Assessment", 0⟩]
    [] EMAIL_ADDRESS true [] (by decide)

end JobSearch
